import Mathlib

/-!
Shallow embedding of the hand-gesture steering game
(src/App.tsx, src/components/RacingGame.tsx).

JavaScript numbers are modelled as rationals; the per-tick simulation
update inside the requestAnimationFrame callback (RacingGame.tsx,
gameLoop, lines 117-288) is modelled as a pure function from the
simulation state, the control state, the elapsed time dt and the canvas
dimensions to a new state plus the list of emitted discrete events
(sounds and the onGameOver callback).  The results of the Math.random()
calls a tick may perform are supplied by an explicit Env record, one
field per call site, so the model is deterministic in its inputs.
The lastTime bookkeeping of the loop is replaced by the dt parameter
(dt equals min of (timestamp - lastTime)/1000 and 0.1, line 119).
-/

/-- Game phases, from src/types (GameState): MENU, PLAYING, GAME_OVER. -/
inductive GameState where
  | MENU
  | PLAYING
  | GAME_OVER
deriving DecidableEq, Repr

/-- Entity kinds, from the string tags at RacingGame.tsx line 14. -/
inductive EntityType where
  | rock
  | oil
  | orb
deriving DecidableEq, Repr

/-- Road entity, RacingGame.tsx lines 10-16. -/
structure Entity where
  id : Nat
  x : ℚ
  y : ℚ
  type : EntityType
  active : Bool
deriving DecidableEq, Repr

/-- Visual particle, RacingGame.tsx lines 18-27. -/
structure Particle where
  x : ℚ
  y : ℚ
  vx : ℚ
  vy : ℚ
  life : ℚ
  maxLife : ℚ
  color : String
  size : ℚ
deriving DecidableEq, Repr

/-- The mutable simulation aggregate stateRef, RacingGame.tsx lines 33-46
(lastTime is omitted: timing is passed in as dt). -/
structure SimState where
  playerX : ℚ
  speed : ℚ
  roadOffset : ℚ
  score : ℤ
  distance : ℚ
  boost : ℚ
  isBoosting : Bool
  entities : List Entity
  particles : List Particle
  entityIdCounter : Nat
  bgOffset : ℚ
deriving DecidableEq, Repr

/-- The control signal read by the game loop each tick
(steering and throttle fields of ControlState). -/
structure ControlState where
  steering : ℚ
  throttle : ℚ
deriving DecidableEq, Repr

/-- Sound kinds accepted by playSound, RacingGame.tsx line 49. -/
inductive SoundKind where
  | collect
  | crash
  | boost
  | start
deriving DecidableEq, Repr

/-- Discrete events emitted during a tick: playSound calls and the
onGameOver callback (which carries the score at the moment of the call). -/
inductive GEvent where
  | sound (k : SoundKind)
  | gameOver (score : ℤ)
deriving DecidableEq, Repr

/-- The Math.random() draws a tick may consume, one field per call site:
the boost-trail particle (lines 152-163), the obstacle spawn roll, x and
kind roll (lines 192-199), the orb spawn roll and x (lines 202-209), and
per-explosion draws for createExplosion (lines 103-115; explosion index,
then particle index within the explosion, yielding the vx, vy and size
draws). -/
structure Env where
  trailRoll : ℚ
  trailDx : ℚ
  trailDvx : ℚ
  obstacleRoll : ℚ
  obstacleX : ℚ
  obstacleKindRoll : ℚ
  orbRoll : ℚ
  orbX : ℚ
  explosionDraws : Nat → Nat → ℚ × ℚ × ℚ

/-- ROAD_WIDTH_PCT, RacingGame.tsx line 98. -/
def ROAD_WIDTH_PCT : ℚ := 1/2

/-- CAR_WIDTH, RacingGame.tsx line 99. -/
def CAR_WIDTH : ℚ := 50

/-- Screen x used by the collision test (and the boost-trail origin):
centerX + x * (w * ROAD_WIDTH_PCT / 2), RacingGame.tsx lines 240-242. -/
def collisionProjectX (w x : ℚ) : ℚ :=
  w / 2 + x * (w * ROAD_WIDTH_PCT / 2)

/-- Screen x used by the render pass for an entity at normalized depth
progress: centerX + x * (roadW / 2) with
roadW = roadTopW * 2 + (roadBottomW * 0.6 * 2 - roadTopW * 2) * progress,
roadTopW = w * 0.1, roadBottomW = w * 0.9
(RacingGame.tsx lines 130-131 and 429-434). -/
def renderProjectX (w x progress : ℚ) : ℚ :=
  let roadTopW := w * (1/10)
  let roadBottomW := w * (9/10)
  let roadW := roadTopW * 2 + (roadBottomW * (6/10) * 2 - roadTopW * 2) * progress
  w / 2 + x * (roadW / 2)

/-- createExplosion, RacingGame.tsx lines 103-115: pushes 20 particles
with random velocities and sizes; draws i yields the three Math.random()
results of iteration i. -/
def createExplosion (draws : Nat → ℚ × ℚ × ℚ) (x y : ℚ) (color : String) :
    List Particle :=
  (List.range 20).map fun i =>
    let r := draws i
    { x := x, y := y,
      vx := (r.1 - 1/2) * 400,
      vy := (r.2.1 - 1/2) * 400,
      life := 1, maxLife := 1,
      color := color,
      size := r.2.2 * 5 + 2 }

/-- Kinematics, boost drain and per-tick accumulators: the UPDATE LOGIC
of gameLoop from the destructuring of controlState through the score
trickle, RacingGame.tsx lines 135-187.  maxSpeed is the local variable of
lines 141-145: 1.5, overwritten to 2.5 whenever the tick enters the boost
block, i.e. whenever isBoosting held at the start of the tick (it keeps
that value even if the boost drains to 0 in the same block). -/
def kinematicsStep (s : SimState) (c : ControlState) (dt w h : ℚ) (env : Env) :
    SimState :=
  let maxSpeed : ℚ := if s.isBoosting then 5/2 else 3/2
  let drained := s.boost - 20 * dt
  let boost : ℚ := if s.isBoosting then (if drained ≤ 0 then 0 else drained) else s.boost
  let isBoosting : Bool :=
    if s.isBoosting then (if drained ≤ 0 then false else true) else s.isBoosting
  let particles : List Particle :=
    if s.isBoosting ∧ env.trailRoll > 1/2 then
      let px := collisionProjectX w s.playerX
      s.particles ++
        [{ x := px + (env.trailDx - 1/2) * 30, y := h - 20,
           vx := (env.trailDvx - 1/2) * 50, vy := 200,
           life := 1/2, maxLife := 1/2, color := "#00ffff", size := 3 }]
    else s.particles
  let speed0 : ℚ :=
    if c.throttle > 1/10 ∨ isBoosting = true then
      s.speed + (if isBoosting then 1 else c.throttle) * (4/5) * dt
    else
      s.speed - (3/10) * dt
  let speed := max 0 (min maxSpeed speed0)
  let playerX : ℚ :=
    if speed > 1/20 then
      max (-(6/5)) (min (6/5) (s.playerX + c.steering * (9/5) * dt))
    else s.playerX
  let speedMultiplier : ℚ := if isBoosting then 1500 else 1000
  { s with
    playerX := playerX,
    speed := speed,
    boost := boost,
    isBoosting := isBoosting,
    particles := particles,
    roadOffset := s.roadOffset + speed * speedMultiplier * dt,
    bgOffset := s.bgOffset + c.steering * speed * 50 * dt,
    distance := s.distance + speed * dt,
    score := s.score + ⌊speed * 10 * (if isBoosting then (2:ℚ) else 1)⌋ }

/-- Entity spawning, RacingGame.tsx lines 189-210: an obstacle with
probability 0.02 * speed * difficultyMultiplier (oil when the kind roll
exceeds 0.7, rock otherwise), then an orb with probability 0.008, both
appended at the horizon. -/
def spawnStep (s : SimState) (h : ℚ) (env : Env) : SimState :=
  let horizonY := h * (35/100)
  let difficultyMultiplier := 1 + s.distance / 500
  let s1 :=
    if env.obstacleRoll < (2/100) * s.speed * difficultyMultiplier then
      { s with
        entities := s.entities ++
          [{ id := s.entityIdCounter,
             x := (env.obstacleX * 2 - 1) * (9/10),
             y := horizonY,
             type := if env.obstacleKindRoll > 7/10 then EntityType.oil else EntityType.rock,
             active := true }],
        entityIdCounter := s.entityIdCounter + 1 }
    else s
  if env.orbRoll < 8/1000 then
    { s1 with
      entities := s1.entities ++
        [{ id := s1.entityIdCounter,
           x := (env.orbX * 2 - 1) * (9/10),
           y := horizonY,
           type := EntityType.orb,
           active := true }],
      entityIdCounter := s1.entityIdCounter + 1 }
  else s1

/-- Per-tick constants read by the entity loop (fixed before the loop
runs): canvas size, dt, the post-kinematics speed, the speed multiplier
of line 183, the player lateral position and the horizon. -/
structure LoopCfg where
  w : ℚ
  h : ℚ
  dt : ℚ
  speed : ℚ
  speedMultiplier : ℚ
  playerX : ℚ
  horizonY : ℚ
  explosionDraws : Nat → Nat → ℚ × ℚ × ℚ

/-- The parts of the state the entity loop mutates, plus the events it
emits, the number of explosions triggered so far and the surviving
entities accumulated so far. -/
structure LoopSt where
  score : ℤ
  boost : ℚ
  isBoosting : Bool
  particles : List Particle
  events : List GEvent
  expIdx : Nat
  survivors : List Entity

/-- Collision resolution for one overlapping entity, RacingGame.tsx
lines 247-271: orb collection (with the boost activation check), crash
while not boosting (onGameOver with the current score; the entity is
left untouched), or boosted destruction. -/
def resolveCollision (st : LoopSt) (e : Entity) (entScreenX playerScreenX h : ℚ)
    (draws : Nat → Nat → ℚ × ℚ × ℚ) : Entity × LoopSt :=
  if e.type = EntityType.orb then
    let boost1 := min 100 (st.boost + 25)
    let score1 := st.score + 500
    let events1 := st.events ++ [GEvent.sound SoundKind.collect]
    let particles1 := st.particles ++ createExplosion (draws st.expIdx) entScreenX e.y "#00ffff"
    if boost1 ≥ 100 ∧ st.isBoosting = false then
      ({ e with active := false },
       { st with boost := 100, score := score1, isBoosting := true,
                 events := events1 ++ [GEvent.sound SoundKind.boost],
                 particles := particles1, expIdx := st.expIdx + 1 })
    else
      ({ e with active := false },
       { st with boost := boost1, score := score1,
                 events := events1,
                 particles := particles1, expIdx := st.expIdx + 1 })
  else if st.isBoosting = false then
    (e,
     { st with
       events := st.events ++ [GEvent.sound SoundKind.crash, GEvent.gameOver st.score],
       particles := st.particles ++
         createExplosion (draws st.expIdx) playerScreenX (h - 100) "#ffaa00",
       expIdx := st.expIdx + 1 })
  else
    ({ e with active := false },
     { st with
       score := st.score + 100,
       events := st.events ++ [GEvent.sound SoundKind.collect],
       particles := st.particles ++
         createExplosion (draws st.expIdx) entScreenX e.y "#ffffff",
       expIdx := st.expIdx + 1 })

/-- The collision test for one already-advanced entity, RacingGame.tsx
lines 234-273: entities inside the near-field band (screen y strictly
between h - 150 and h + 50) and still active are compared with the
player in screen space and resolved when the horizontal separation is
below CAR_WIDTH * 0.8. -/
def entCollide (cfg : LoopCfg) (e1 : Entity) (st : LoopSt) : Entity × LoopSt :=
  if e1.y > cfg.h - 150 ∧ e1.y < cfg.h + 50 ∧ e1.active = true then
    let entScreenX := collisionProjectX cfg.w e1.x
    let playerScreenX := collisionProjectX cfg.w cfg.playerX
    if |entScreenX - playerScreenX| < CAR_WIDTH * (8/10) then
      resolveCollision st e1 entScreenX playerScreenX cfg.h cfg.explosionDraws
    else (e1, st)
  else (e1, st)

/-- One iteration of the entity loop, RacingGame.tsx lines 223-277:
advance the entity depth with the pseudo-perspective speedup, run the
collision test, then keep or drop the entity (dropped when past the
bottom or inactive). -/
def entStep (cfg : LoopCfg) (e : Entity) (st : LoopSt) : LoopSt :=
  let progress := (e.y - cfg.horizonY) / (cfg.h - cfg.horizonY)
  let moveSpeed := cfg.speed * cfg.speedMultiplier * cfg.dt * (1/10 + progress * 2)
  let r := entCollide cfg { e with y := e.y + moveSpeed } st
  if r.1.y > cfg.h + 100 ∨ r.1.active = false then r.2
  else { r.2 with survivors := r.1 :: r.2.survivors }

/-- The entity loop iterates the array from the last index down to 0
(RacingGame.tsx line 223); entities later in the list are therefore
processed first, and consing survivors back preserves the original
order, matching in-place splice during backwards iteration. -/
def entLoop (cfg : LoopCfg) : List Entity → LoopSt → LoopSt
  | [], st => st
  | e :: rest, st => entStep cfg e (entLoop cfg rest st)

/-- The entity-update and collision phase of the tick: runs the loop
over the current entities and writes the mutated fields back. -/
def entityPhase (s : SimState) (dt w h : ℚ) (env : Env) : SimState × List GEvent :=
  let cfg : LoopCfg :=
    { w := w, h := h, dt := dt, speed := s.speed,
      speedMultiplier := if s.isBoosting then 1500 else 1000,
      playerX := s.playerX, horizonY := h * (35/100),
      explosionDraws := env.explosionDraws }
  let st0 : LoopSt :=
    { score := s.score, boost := s.boost, isBoosting := s.isBoosting,
      particles := s.particles, events := [], expIdx := 0, survivors := [] }
  let st := entLoop cfg s.entities st0
  ({ s with score := st.score, boost := st.boost, isBoosting := st.isBoosting,
            particles := st.particles, entities := st.survivors },
   st.events)

/-- Particle aging, RacingGame.tsx lines 281-287: move each particle,
decrement its life and drop it once life reaches 0 (per-element,
order-preserving, so the backwards in-place splice equals map + filter). -/
def particleStep (ps : List Particle) (dt : ℚ) : List Particle :=
  (ps.map fun p =>
    { p with x := p.x + p.vx * dt, y := p.y + p.vy * dt, life := p.life - dt }).filter
    fun p => decide (0 < p.life)

/-- Entire particle-aging phase on the state. -/
def particlePhase (s : SimState) (dt : ℚ) : SimState :=
  { s with particles := particleStep s.particles dt }

/-- One frame of gameLoop, RacingGame.tsx lines 117-288: all simulation
updates (kinematics, spawning, entity/collision loop and particle aging)
are guarded by gameState === PLAYING (lines 134 and 288); outside
PLAYING the frame only renders, leaving the state untouched and emitting
no event.  Returns the new state and the events of the tick in emission
order. -/
def gameTick (phase : GameState) (s : SimState) (c : ControlState) (dt w h : ℚ)
    (env : Env) : SimState × List GEvent :=
  if phase = GameState.PLAYING then
    let s1 := kinematicsStep s c dt w h env
    let s2 := spawnStep s1 h env
    let r := entityPhase s2 dt w h env
    (particlePhase r.1 dt, r.2)
  else (s, [])

/-- The session-level state of App.tsx: the phase, the last reported
score, and the simulation aggregate of the mounted RacingGame component
(its stateRef persists across phase changes, being initialized once at
mount, RacingGame.tsx lines 33-46). -/
structure AppState where
  gameState : GameState
  lastScore : ℤ
  sim : SimState
deriving DecidableEq, Repr

/-- The initial value of stateRef, RacingGame.tsx lines 33-46. -/
def initialSimState : SimState :=
  { playerX := 0, speed := 0, roadOffset := 0, score := 0, distance := 0,
    boost := 0, isBoosting := false, entities := [], particles := [],
    entityIdCounter := 0, bgOffset := 0 }

/-- startGame, App.tsx lines 27-29: sets the phase to PLAYING.  Nothing
in App.tsx or RacingGame.tsx reinitializes stateRef on this transition,
so the simulation aggregate carries over unchanged. -/
def startGame (a : AppState) : AppState :=
  { a with gameState := GameState.PLAYING }

/-- handleGameOver, App.tsx lines 22-25: records the score and moves to
GAME_OVER. -/
def handleGameOver (score : ℤ) (a : AppState) : AppState :=
  { a with lastScore := score, gameState := GameState.GAME_OVER }

/-- Modelled from the spec: the defensive clamp of control inputs to
their documented domains (steering to the interval from -1 to 1,
throttle to the interval from 0 to 1) that section 7 requires at the
Kinematics boundary; no such clamp exists in the source, so this
definition exists only to be compared with kinematicsStep. -/
def clampControl (c : ControlState) : ControlState :=
  { steering := max (-1) (min 1 c.steering),
    throttle := max 0 (min 1 c.throttle) }

/-- A concrete draw environment: both spawn rolls fail (probabilities are
below 1) and the boost-trail roll fails; explosion draws are all 0. -/
def env0 : Env :=
  { trailRoll := 0, trailDx := 0, trailDvx := 0,
    obstacleRoll := 1, obstacleX := 0, obstacleKindRoll := 0,
    orbRoll := 1, orbX := 0,
    explosionDraws := fun _ _ => (0, 0, 0) }

/-- A state one tick away from boost exhaustion: boosting at full speed
with 1 unit of charge left. -/
def boostExpiryState : SimState :=
  { initialSimState with speed := 5/2, boost := 1, isBoosting := true }

/-- A state with an orb and a rock both inside the collision band and
horizontally on top of the player (the rock has the higher index, so the
backwards entity loop resolves it first). -/
def crashOrbState : SimState :=
  { initialSimState with
    entities := [⟨0, 0, 500, EntityType.orb, true⟩, ⟨1, 0, 500, EntityType.rock, true⟩],
    entityIdCounter := 2 }

/-- A state with boost charge 75 and one orb inside the collision band on
top of the player. -/
def orbAt75State : SimState :=
  { initialSimState with
    boost := 75,
    entities := [⟨0, 0, 500, EntityType.orb, true⟩],
    entityIdCounter := 1 }

/-- Same as orbAt75State but with boost charge 50. -/
def orbAt50State : SimState :=
  { initialSimState with
    boost := 50,
    entities := [⟨0, 0, 500, EntityType.orb, true⟩],
    entityIdCounter := 1 }

/-- A state in which the car is moving, so that steering integrates. -/
def movingState : SimState :=
  { initialSimState with speed := 1 }

/-- A MENU-phase state holding one live particle. -/
def menuState : SimState :=
  { initialSimState with particles := [⟨0, 0, 0, 0, 1, 1, "#fff", 1⟩] }

/-- A rock entity inside the collision band, horizontally on the player. -/
def rockHit : Entity := ⟨1, 0, 500, EntityType.rock, true⟩

/-- An orb entity inside the collision band, horizontally on the player. -/
def orbHit : Entity := ⟨0, 0, 500, EntityType.orb, true⟩

/-- A concrete entity-loop accumulator in the normal (non-boosting) mode. -/
def loopStNormal : LoopSt :=
  { score := 42, boost := 10, isBoosting := false, particles := [], events := [],
    expIdx := 0, survivors := [] }

/-- A concrete entity-loop accumulator in the boosting mode. -/
def loopStBoosting : LoopSt :=
  { score := 42, boost := 60, isBoosting := true, particles := [], events := [],
    expIdx := 0, survivors := [] }

/-- A session that has just ended: GAME_OVER phase with a non-default
simulation aggregate left over from the crash. -/
def priorApp : AppState :=
  { gameState := GameState.GAME_OVER, lastScore := 500,
    sim := { playerX := 1/2, speed := 1, roadOffset := 3, score := 500, distance := 7,
             boost := 50, isBoosting := true,
             entities := [⟨0, 0, 500, EntityType.rock, true⟩], particles := [],
             entityIdCounter := 1, bgOffset := 2 } }

/-- Claim C1, counterexample: at viewport width 800 and the concrete pair
(lateral 1, depthProgress 29/39 — the depth of an entity at screen y 500
with h = 600, inside the collision band), the screen x computed by the
render pass (28928/39) differs from the screen x used by the collision
test (600): the two call sites do not apply the same projection. -/
theorem C1_projection_counterexample :
    renderProjectX 800 1 (29/39) ≠ collisionProjectX 800 1 := by
  norm_num [renderProjectX, collisionProjectX, ROAD_WIDTH_PCT]

/-- Claim C1, amended: both screen positions are affine in the lateral
coordinate, but the collision test uses the fixed road width
w * ROAD_WIDTH_PCT while rendering interpolates the road width with
depth; for a positive viewport width the two agree exactly when the
lateral offset is 0 or the depth progress is 15/44. -/
theorem C1_projection_agreement (w x p : ℚ) (hw : 0 < w) :
    collisionProjectX w x = renderProjectX w x p ↔ x = 0 ∨ p = 15/44 := by
  simp only [collisionProjectX, renderProjectX, ROAD_WIDTH_PCT]
  constructor
  · intro hEq
    have h0 : x * (w * (3/20 - 11/25 * p)) = 0 := by linear_combination hEq
    rcases mul_eq_zero.mp h0 with hx | h1
    · exact Or.inl hx
    · rcases mul_eq_zero.mp h1 with hw0 | hp
      · exact absurd hw0 (ne_of_gt hw)
      · exact Or.inr (by linarith)
  · rintro (rfl | rfl) <;> ring

/-- Witness for C1_projection_agreement at w = 800, lateral 0,
progress 0. -/
theorem C1_projection_agreement_witness :
    0 < (800:ℚ) ∧
      (collisionProjectX 800 0 = renderProjectX 800 0 0 ↔ (0:ℚ) = 0 ∨ (0:ℚ) = 15/44) :=
  ⟨by norm_num, C1_projection_agreement 800 0 0 (by norm_num)⟩

/-- Claim C2 (code bug), evaluation at the failing input: startGame after
a finished session only flips the phase to PLAYING; the simulation
aggregate is carried over unchanged and is not the default state (the
old score, speed, boost, boost mode and entities survive into the new
session). -/
theorem C2_restart_keeps_prior_state :
    (startGame priorApp).gameState = GameState.PLAYING ∧
    (startGame priorApp).sim = priorApp.sim ∧
    (startGame priorApp).sim ≠ initialSimState := by
  refine ⟨rfl, rfl, ?_⟩
  simp only [startGame, priorApp, initialSimState, ne_eq, SimState.mk.injEq]
  norm_num

/-- Claim C3, counterexample: from a boosting state with speed 5/2 and
1 unit of charge left, one tick with dt = 1/10 and zero throttle drains
the boost (isBoosting becomes false) but clamps the speed against the
still-boosted maxSpeed 5/2, leaving speed = 247/100 > 3/2: the invariant
speed ≤ maxSpeed(state) with maxSpeed = 3/2 when not boosting is
violated right after this tick. -/
theorem C3_speed_bound_counterexample :
    (gameTick GameState.PLAYING boostExpiryState ⟨0, 0⟩ (1/10) 800 600 env0).1.isBoosting
        = false ∧
    (gameTick GameState.PLAYING boostExpiryState ⟨0, 0⟩ (1/10) 800 600 env0).1.speed
        = 247/100 ∧
    ¬ (gameTick GameState.PLAYING boostExpiryState ⟨0, 0⟩ (1/10) 800 600 env0).1.speed
        ≤ 3/2 := by
  norm_num +decide [gameTick, kinematicsStep, spawnStep, entityPhase, entLoop,
    particlePhase, particleStep, collisionProjectX, ROAD_WIDTH_PCT,
    boostExpiryState, initialSimState, env0]

/-- Claim C4, counterexample: with a rock and an orb both overlapping the
player (the rock resolved first by the backwards entity loop) and the
boost inactive, the tick emits the crash sound and onGameOver reporting
score 0, but then keeps processing: the orb is still collected, so the
tick ends with score 500 — score accrues after the terminal event and
the reported final score is not the last one. -/
theorem C4_score_after_gameover_counterexample :
    (gameTick GameState.PLAYING crashOrbState ⟨0, 0⟩ (1/10) 800 600 env0).2 =
      [GEvent.sound SoundKind.crash, GEvent.gameOver 0, GEvent.sound SoundKind.collect] ∧
    (gameTick GameState.PLAYING crashOrbState ⟨0, 0⟩ (1/10) 800 600 env0).1.score = 500 := by
  norm_num +decide [gameTick, kinematicsStep, spawnStep, entityPhase, entLoop, entStep,
    entCollide, resolveCollision, particlePhase, particleStep, createExplosion,
    collisionProjectX, ROAD_WIDTH_PCT, CAR_WIDTH, crashOrbState, initialSimState, env0,
    List.range_succ]

/-- Claim C5, counterexample: an out-of-domain steering value (2, outside
the documented interval from -1 to 1) is integrated at full magnitude —
the kinematics step moves the lateral position to 9/250, while the same
step fed the defensively clamped control signal moves it to 9/500; no
clamp is applied at the kinematics boundary before integration. -/
theorem C5_no_input_clamp_counterexample :
    (kinematicsStep movingState ⟨2, 1/2⟩ (1/100) 800 600 env0).playerX ≠
    (kinematicsStep movingState (clampControl ⟨2, 1/2⟩) (1/100) 800 600 env0).playerX := by
  norm_num +decide [kinematicsStep, clampControl, movingState, initialSimState, env0,
    collisionProjectX, ROAD_WIDTH_PCT]

/-- Claim C6 (confirmed): from boost charge 75 in the normal state, one
orb pickup tick yields boosting with charge 100 (and the boost-activation
sound); from charge 50 it yields the normal state with charge 75; in both
cases the orb is deactivated (removed from the entity list) and exactly
500 is added to the score. -/
theorem C6_orb_pickup_determinism :
    ((gameTick GameState.PLAYING orbAt75State ⟨0, 0⟩ (1/10) 800 600 env0).1.isBoosting = true ∧
     (gameTick GameState.PLAYING orbAt75State ⟨0, 0⟩ (1/10) 800 600 env0).1.boost = 100 ∧
     (gameTick GameState.PLAYING orbAt75State ⟨0, 0⟩ (1/10) 800 600 env0).1.score = 500 ∧
     (gameTick GameState.PLAYING orbAt75State ⟨0, 0⟩ (1/10) 800 600 env0).1.entities = [] ∧
     (gameTick GameState.PLAYING orbAt75State ⟨0, 0⟩ (1/10) 800 600 env0).2 =
       [GEvent.sound SoundKind.collect, GEvent.sound SoundKind.boost]) ∧
    ((gameTick GameState.PLAYING orbAt50State ⟨0, 0⟩ (1/10) 800 600 env0).1.isBoosting = false ∧
     (gameTick GameState.PLAYING orbAt50State ⟨0, 0⟩ (1/10) 800 600 env0).1.boost = 75 ∧
     (gameTick GameState.PLAYING orbAt50State ⟨0, 0⟩ (1/10) 800 600 env0).1.score = 500 ∧
     (gameTick GameState.PLAYING orbAt50State ⟨0, 0⟩ (1/10) 800 600 env0).1.entities = [] ∧
     (gameTick GameState.PLAYING orbAt50State ⟨0, 0⟩ (1/10) 800 600 env0).2 =
       [GEvent.sound SoundKind.collect]) := by
  constructor <;>
    norm_num +decide [gameTick, kinematicsStep, spawnStep, entityPhase, entLoop, entStep,
      entCollide, resolveCollision, particlePhase, particleStep, createExplosion,
      collisionProjectX, ROAD_WIDTH_PCT, CAR_WIDTH, orbAt75State, orbAt50State,
      initialSimState, env0, List.range_succ]

/-- Claim C9, counterexample: in the MENU phase a frame leaves the
particle list untouched, even though aging at dt = 1/10 would have
changed it (the single particle would move to life 9/10): particle aging
is not performed outside PLAYING. -/
theorem C9_particles_frozen_counterexample :
    (gameTick GameState.MENU menuState ⟨0, 0⟩ (1/10) 800 600 env0).1.particles =
      menuState.particles ∧
    particleStep menuState.particles (1/10) ≠ menuState.particles := by
  refine ⟨rfl, ?_⟩
  simp only [particleStep, menuState, initialSimState, List.map, List.filter, ne_eq]
  norm_num

theorem kinematicsStep_speed_nonneg (s : SimState) (c : ControlState) (dt w h : ℚ)
    (env : Env) : 0 ≤ (kinematicsStep s c dt w h env).speed := by
  simp only [kinematicsStep]
  exact le_max_left 0 _

theorem kinematicsStep_speed_le (s : SimState) (c : ControlState) (dt w h : ℚ)
    (env : Env) :
    (kinematicsStep s c dt w h env).speed ≤ (if s.isBoosting then (5:ℚ)/2 else 3/2) := by
  simp only [kinematicsStep]
  split_ifs <;> exact max_le (by norm_num) (min_le_left _ _)

theorem kinematicsStep_playerX_mem (s : SimState) (c : ControlState) (dt w h : ℚ)
    (env : Env) (hx0 : -(6/5) ≤ s.playerX) (hx1 : s.playerX ≤ 6/5) :
    -(6/5) ≤ (kinematicsStep s c dt w h env).playerX ∧
      (kinematicsStep s c dt w h env).playerX ≤ 6/5 := by
  simp only [kinematicsStep]
  have key : ∀ (cond : Prop) (inst : Decidable cond) (z : ℚ),
      -(6/5) ≤ (@ite _ cond inst (max (-(6/5)) (min (6/5) z)) s.playerX) ∧
        (@ite _ cond inst (max (-(6/5)) (min (6/5) z)) s.playerX) ≤ 6/5 := by
    intro cond inst z
    split
    · exact ⟨le_max_left _ _, max_le (by norm_num) (min_le_left _ _)⟩
    · exact ⟨hx0, hx1⟩
  exact key _ _ _

theorem kinematicsStep_boost_mem (s : SimState) (c : ControlState) (dt w h : ℚ)
    (env : Env) (hdt : 0 ≤ dt) (hb0 : 0 ≤ s.boost) (hb1 : s.boost ≤ 100) :
    0 ≤ (kinematicsStep s c dt w h env).boost ∧
      (kinematicsStep s c dt w h env).boost ≤ 100 := by
  simp only [kinematicsStep]
  split_ifs <;> push_neg at * <;> constructor <;> linarith

theorem kinematicsStep_score_le (s : SimState) (c : ControlState) (dt w h : ℚ)
    (env : Env) : s.score ≤ (kinematicsStep s c dt w h env).score := by
  simp only [kinematicsStep]
  refine le_add_of_nonneg_right (Int.floor_nonneg.mpr ?_)
  refine mul_nonneg (mul_nonneg (le_max_left 0 _) (by norm_num)) ?_
  split_ifs <;> norm_num

theorem kinematicsStep_distance_le (s : SimState) (c : ControlState) (dt w h : ℚ)
    (env : Env) (hdt : 0 ≤ dt) : s.distance ≤ (kinematicsStep s c dt w h env).distance := by
  simp only [kinematicsStep]
  exact le_add_of_nonneg_right (mul_nonneg (le_max_left 0 _) hdt)

theorem spawnStep_speed (s : SimState) (h : ℚ) (env : Env) :
    (spawnStep s h env).speed = s.speed := by
  simp only [spawnStep]
  split_ifs <;> rfl

theorem spawnStep_playerX (s : SimState) (h : ℚ) (env : Env) :
    (spawnStep s h env).playerX = s.playerX := by
  simp only [spawnStep]
  split_ifs <;> rfl

theorem spawnStep_boost (s : SimState) (h : ℚ) (env : Env) :
    (spawnStep s h env).boost = s.boost := by
  simp only [spawnStep]
  split_ifs <;> rfl

theorem spawnStep_score (s : SimState) (h : ℚ) (env : Env) :
    (spawnStep s h env).score = s.score := by
  simp only [spawnStep]
  split_ifs <;> rfl

theorem spawnStep_distance (s : SimState) (h : ℚ) (env : Env) :
    (spawnStep s h env).distance = s.distance := by
  simp only [spawnStep]
  split_ifs <;> rfl

theorem resolveCollision_score_le (st : LoopSt) (e : Entity) (ex px h : ℚ)
    (draws : Nat → Nat → ℚ × ℚ × ℚ) :
    st.score ≤ (resolveCollision st e ex px h draws).2.score := by
  simp only [resolveCollision]
  split_ifs <;> simp

theorem resolveCollision_boost_mem (st : LoopSt) (e : Entity) (ex px h : ℚ)
    (draws : Nat → Nat → ℚ × ℚ × ℚ) (hb0 : 0 ≤ st.boost) (hb1 : st.boost ≤ 100) :
    0 ≤ (resolveCollision st e ex px h draws).2.boost ∧
      (resolveCollision st e ex px h draws).2.boost ≤ 100 := by
  simp only [resolveCollision]
  split_ifs <;> simp <;>
    first
      | linarith
      | constructor <;> linarith

theorem entCollide_score_le (cfg : LoopCfg) (e1 : Entity) (st : LoopSt) :
    st.score ≤ (entCollide cfg e1 st).2.score := by
  simp only [entCollide]
  split
  · split
    · exact resolveCollision_score_le _ _ _ _ _ _
    · exact le_refl _
  · exact le_refl _

theorem entCollide_boost_mem (cfg : LoopCfg) (e1 : Entity) (st : LoopSt)
    (hb0 : 0 ≤ st.boost) (hb1 : st.boost ≤ 100) :
    0 ≤ (entCollide cfg e1 st).2.boost ∧ (entCollide cfg e1 st).2.boost ≤ 100 := by
  simp only [entCollide]
  split
  · split
    · exact resolveCollision_boost_mem _ _ _ _ _ _ hb0 hb1
    · exact ⟨hb0, hb1⟩
  · exact ⟨hb0, hb1⟩

theorem entStep_score_le (cfg : LoopCfg) (e : Entity) (st : LoopSt) :
    st.score ≤ (entStep cfg e st).score := by
  simp only [entStep]
  split
  · exact entCollide_score_le _ _ _
  · exact entCollide_score_le _ _ _

theorem entStep_boost_mem (cfg : LoopCfg) (e : Entity) (st : LoopSt)
    (hb0 : 0 ≤ st.boost) (hb1 : st.boost ≤ 100) :
    0 ≤ (entStep cfg e st).boost ∧ (entStep cfg e st).boost ≤ 100 := by
  simp only [entStep]
  split
  · exact entCollide_boost_mem _ _ _ hb0 hb1
  · exact entCollide_boost_mem _ _ _ hb0 hb1

theorem entLoop_score_le (cfg : LoopCfg) (l : List Entity) (st : LoopSt) :
    st.score ≤ (entLoop cfg l st).score := by
  induction l with
  | nil => exact le_refl _
  | cons e rest ih => exact le_trans ih (entStep_score_le cfg e _)

theorem entLoop_boost_mem (cfg : LoopCfg) (l : List Entity) (st : LoopSt)
    (hb0 : 0 ≤ st.boost) (hb1 : st.boost ≤ 100) :
    0 ≤ (entLoop cfg l st).boost ∧ (entLoop cfg l st).boost ≤ 100 := by
  induction l with
  | nil => exact ⟨hb0, hb1⟩
  | cons e rest ih => exact entStep_boost_mem cfg e _ ih.1 ih.2

theorem entityPhase_fst_speed (s : SimState) (dt w h : ℚ) (env : Env) :
    (entityPhase s dt w h env).1.speed = s.speed := rfl

theorem entityPhase_fst_playerX (s : SimState) (dt w h : ℚ) (env : Env) :
    (entityPhase s dt w h env).1.playerX = s.playerX := rfl

theorem entityPhase_fst_distance (s : SimState) (dt w h : ℚ) (env : Env) :
    (entityPhase s dt w h env).1.distance = s.distance := rfl

theorem entityPhase_fst_score_le (s : SimState) (dt w h : ℚ) (env : Env) :
    s.score ≤ (entityPhase s dt w h env).1.score :=
  entLoop_score_le _ s.entities _

theorem entityPhase_fst_boost_mem (s : SimState) (dt w h : ℚ) (env : Env)
    (hb0 : 0 ≤ s.boost) (hb1 : s.boost ≤ 100) :
    0 ≤ (entityPhase s dt w h env).1.boost ∧ (entityPhase s dt w h env).1.boost ≤ 100 :=
  entLoop_boost_mem _ s.entities _ hb0 hb1

theorem particlePhase_speed (s : SimState) (dt : ℚ) :
    (particlePhase s dt).speed = s.speed := rfl

theorem particlePhase_playerX (s : SimState) (dt : ℚ) :
    (particlePhase s dt).playerX = s.playerX := rfl

theorem particlePhase_boost (s : SimState) (dt : ℚ) :
    (particlePhase s dt).boost = s.boost := rfl

theorem particlePhase_score (s : SimState) (dt : ℚ) :
    (particlePhase s dt).score = s.score := rfl

theorem particlePhase_distance (s : SimState) (dt : ℚ) :
    (particlePhase s dt).distance = s.distance := rfl

theorem gameTick_playing_eq (s : SimState) (c : ControlState) (dt w h : ℚ) (env : Env) :
    gameTick GameState.PLAYING s c dt w h env =
      (particlePhase
        (entityPhase (spawnStep (kinematicsStep s c dt w h env) h env) dt w h env).1 dt,
       (entityPhase (spawnStep (kinematicsStep s c dt w h env) h env) dt w h env).2) := rfl

/-- Claim C3, amended: after every PLAYING tick (0 ≤ dt, boost charge
and lateral position in range beforehand), boostCharge stays in [0, 100]
and playerLateral stays in [-6/5, 6/5]; the speed is clamped to
[0, maxSpeed] where maxSpeed is determined by the boost mode AT THE
START of the tick (5/2 if boosting then, 3/2 otherwise) — on the tick in
which the boost drains to zero the speed may therefore still be up to
5/2 while isBoosting is already false (see the counterexample), and it
is pulled back below 3/2 on the next tick. -/
theorem C3_tick_invariants (s : SimState) (c : ControlState) (dt w h : ℚ) (env : Env)
    (hdt : 0 ≤ dt) (hb0 : 0 ≤ s.boost) (hb1 : s.boost ≤ 100)
    (hx0 : -(6/5) ≤ s.playerX) (hx1 : s.playerX ≤ 6/5) :
    0 ≤ (gameTick GameState.PLAYING s c dt w h env).1.speed ∧
    (gameTick GameState.PLAYING s c dt w h env).1.speed ≤
      (if s.isBoosting then (5:ℚ)/2 else 3/2) ∧
    0 ≤ (gameTick GameState.PLAYING s c dt w h env).1.boost ∧
    (gameTick GameState.PLAYING s c dt w h env).1.boost ≤ 100 ∧
    -(6/5) ≤ (gameTick GameState.PLAYING s c dt w h env).1.playerX ∧
    (gameTick GameState.PLAYING s c dt w h env).1.playerX ≤ 6/5 := by
  have hkinb := kinematicsStep_boost_mem s c dt w h env hdt hb0 hb1
  have hkinx := kinematicsStep_playerX_mem s c dt w h env hx0 hx1
  have hboost := entityPhase_fst_boost_mem
    (spawnStep (kinematicsStep s c dt w h env) h env) dt w h env
    (by rw [spawnStep_boost]; exact hkinb.1)
    (by rw [spawnStep_boost]; exact hkinb.2)
  rw [gameTick_playing_eq]
  dsimp only
  rw [particlePhase_speed, particlePhase_boost, particlePhase_playerX,
    entityPhase_fst_speed, entityPhase_fst_playerX, spawnStep_speed, spawnStep_playerX]
  exact ⟨kinematicsStep_speed_nonneg s c dt w h env,
    kinematicsStep_speed_le s c dt w h env,
    hboost.1, hboost.2, hkinx.1, hkinx.2⟩

/-- Witness for C3_tick_invariants at the default state, dt = 1/10. -/
theorem C3_tick_invariants_witness :
    (0 ≤ (1:ℚ)/10 ∧ 0 ≤ initialSimState.boost ∧ initialSimState.boost ≤ 100 ∧
      -(6/5) ≤ initialSimState.playerX ∧ initialSimState.playerX ≤ 6/5) ∧
    (0 ≤ (gameTick GameState.PLAYING initialSimState ⟨0, 0⟩ (1/10) 800 600 env0).1.speed ∧
     (gameTick GameState.PLAYING initialSimState ⟨0, 0⟩ (1/10) 800 600 env0).1.speed ≤
       (if initialSimState.isBoosting then (5:ℚ)/2 else 3/2) ∧
     0 ≤ (gameTick GameState.PLAYING initialSimState ⟨0, 0⟩ (1/10) 800 600 env0).1.boost ∧
     (gameTick GameState.PLAYING initialSimState ⟨0, 0⟩ (1/10) 800 600 env0).1.boost ≤ 100 ∧
     -(6/5) ≤ (gameTick GameState.PLAYING initialSimState ⟨0, 0⟩ (1/10) 800 600 env0).1.playerX ∧
     (gameTick GameState.PLAYING initialSimState ⟨0, 0⟩ (1/10) 800 600 env0).1.playerX ≤ 6/5) :=
  ⟨⟨by norm_num, by norm_num [initialSimState], by norm_num [initialSimState],
    by norm_num [initialSimState], by norm_num [initialSimState]⟩,
   C3_tick_invariants initialSimState ⟨0, 0⟩ (1/10) 800 600 env0 (by norm_num)
     (by norm_num [initialSimState]) (by norm_num [initialSimState])
     (by norm_num [initialSimState]) (by norm_num [initialSimState])⟩

/-- Claim C4, amended: resolving one Rock/Oil collision while not
boosting emits exactly one crash sound followed by exactly one
onGameOver event carrying the score as it stands at that moment, leaves
the score unchanged and leaves the entity untouched (still active); the
tick however keeps processing the remaining entities, so score may still
accrue and further events may be emitted after this terminal event
within the same tick (see the counterexample). -/
theorem C4_crash_emits_single_gameover (st : LoopSt) (e : Entity) (ex px h : ℚ)
    (draws : Nat → Nat → ℚ × ℚ × ℚ) (hb : st.isBoosting = false)
    (ht : e.type ≠ EntityType.orb) :
    (resolveCollision st e ex px h draws).1 = e ∧
    (resolveCollision st e ex px h draws).2.score = st.score ∧
    (resolveCollision st e ex px h draws).2.events =
      st.events ++ [GEvent.sound SoundKind.crash, GEvent.gameOver st.score] := by
  simp [resolveCollision, if_neg ht, if_pos hb]

/-- Witness for C4_crash_emits_single_gameover: a rock resolved in the
normal mode. -/
theorem C4_crash_emits_single_gameover_witness :
    (loopStNormal.isBoosting = false ∧ rockHit.type ≠ EntityType.orb) ∧
    ((resolveCollision loopStNormal rockHit 400 400 600 (fun _ _ => (0, 0, 0))).1 = rockHit ∧
     (resolveCollision loopStNormal rockHit 400 400 600 (fun _ _ => (0, 0, 0))).2.score =
       loopStNormal.score ∧
     (resolveCollision loopStNormal rockHit 400 400 600 (fun _ _ => (0, 0, 0))).2.events =
       loopStNormal.events ++
         [GEvent.sound SoundKind.crash, GEvent.gameOver loopStNormal.score]) :=
  ⟨⟨rfl, by decide⟩,
   C4_crash_emits_single_gameover loopStNormal rockHit 400 400 600 (fun _ _ => (0, 0, 0))
     rfl (by decide)⟩

/-- Claim C5, amended: no defensive clamp is applied to the control
signal at the kinematics boundary (see the counterexample); instead the
post-integration state clamps bound the state for ARBITRARY rational
steering and throttle values: speed stays in [0, 5/2] and playerLateral
stays in [-6/5, 6/5] (given it was in range before).  NaN inputs are
outside this rational model; the source has no guard against them. -/
theorem C5_state_bounded_without_input_clamp (s : SimState) (c : ControlState)
    (dt w h : ℚ) (env : Env) (hx0 : -(6/5) ≤ s.playerX) (hx1 : s.playerX ≤ 6/5) :
    0 ≤ (kinematicsStep s c dt w h env).speed ∧
    (kinematicsStep s c dt w h env).speed ≤ 5/2 ∧
    -(6/5) ≤ (kinematicsStep s c dt w h env).playerX ∧
    (kinematicsStep s c dt w h env).playerX ≤ 6/5 := by
  have hle := kinematicsStep_speed_le s c dt w h env
  have hx := kinematicsStep_playerX_mem s c dt w h env hx0 hx1
  refine ⟨kinematicsStep_speed_nonneg s c dt w h env, ?_, hx.1, hx.2⟩
  split_ifs at hle <;> linarith

/-- Witness for C5_state_bounded_without_input_clamp at a wildly
out-of-domain control signal (steering 1000000, throttle -1000000). -/
theorem C5_state_bounded_without_input_clamp_witness :
    (-(6/5) ≤ movingState.playerX ∧ movingState.playerX ≤ 6/5) ∧
    (0 ≤ (kinematicsStep movingState ⟨1000000, -1000000⟩ (1/10) 800 600 env0).speed ∧
     (kinematicsStep movingState ⟨1000000, -1000000⟩ (1/10) 800 600 env0).speed ≤ 5/2 ∧
     -(6/5) ≤ (kinematicsStep movingState ⟨1000000, -1000000⟩ (1/10) 800 600 env0).playerX ∧
     (kinematicsStep movingState ⟨1000000, -1000000⟩ (1/10) 800 600 env0).playerX ≤ 6/5) :=
  ⟨⟨by norm_num [movingState, initialSimState], by norm_num [movingState, initialSimState]⟩,
   C5_state_bounded_without_input_clamp movingState ⟨1000000, -1000000⟩ (1/10) 800 600 env0
     (by norm_num [movingState, initialSimState]) (by norm_num [movingState, initialSimState])⟩

/-- Claim C7 (confirmed): resolving any Rock/Oil collision while
boosting never emits an onGameOver event — the events grow only by the
collect sound — and deactivates the entity and adds exactly 100 to the
score. -/
theorem C7_boosted_obstacle_destroyed (st : LoopSt) (e : Entity) (ex px h : ℚ)
    (draws : Nat → Nat → ℚ × ℚ × ℚ) (hb : st.isBoosting = true)
    (ht : e.type ≠ EntityType.orb) :
    (resolveCollision st e ex px h draws).1 = { e with active := false } ∧
    (resolveCollision st e ex px h draws).2.score = st.score + 100 ∧
    (resolveCollision st e ex px h draws).2.events =
      st.events ++ [GEvent.sound SoundKind.collect] := by
  simp [resolveCollision, if_neg ht, hb]

/-- Witness for C7_boosted_obstacle_destroyed: a rock resolved while
boosting. -/
theorem C7_boosted_obstacle_destroyed_witness :
    (loopStBoosting.isBoosting = true ∧ rockHit.type ≠ EntityType.orb) ∧
    ((resolveCollision loopStBoosting rockHit 400 400 600 (fun _ _ => (0, 0, 0))).1 =
       { rockHit with active := false } ∧
     (resolveCollision loopStBoosting rockHit 400 400 600 (fun _ _ => (0, 0, 0))).2.score =
       loopStBoosting.score + 100 ∧
     (resolveCollision loopStBoosting rockHit 400 400 600 (fun _ _ => (0, 0, 0))).2.events =
       loopStBoosting.events ++ [GEvent.sound SoundKind.collect]) :=
  ⟨⟨rfl, by decide⟩,
   C7_boosted_obstacle_destroyed loopStBoosting rockHit 400 400 600 (fun _ _ => (0, 0, 0))
     rfl (by decide)⟩

/-- Claim C8 (confirmed): for any phase, state, control signal and
non-negative dt, one frame never decreases the score or the distance
(outside PLAYING the state is unchanged; during PLAYING the score
trickle is a non-negative floor, event bonuses are non-negative, and
distance grows by speed * dt with clamped non-negative speed). -/
theorem C8_score_distance_monotone (phase : GameState) (s : SimState) (c : ControlState)
    (dt w h : ℚ) (env : Env) (hdt : 0 ≤ dt) :
    s.score ≤ (gameTick phase s c dt w h env).1.score ∧
    s.distance ≤ (gameTick phase s c dt w h env).1.distance := by
  cases phase with
  | PLAYING =>
      rw [gameTick_playing_eq]
      dsimp only
      constructor
      · rw [particlePhase_score]
        calc s.score ≤ (kinematicsStep s c dt w h env).score :=
              kinematicsStep_score_le s c dt w h env
          _ = (spawnStep (kinematicsStep s c dt w h env) h env).score :=
              (spawnStep_score _ _ _).symm
          _ ≤ (entityPhase (spawnStep (kinematicsStep s c dt w h env) h env) dt w h env).1.score :=
              entityPhase_fst_score_le _ _ _ _ _
      · rw [particlePhase_distance, entityPhase_fst_distance, spawnStep_distance]
        exact kinematicsStep_distance_le s c dt w h env hdt
  | MENU => exact ⟨le_refl _, le_refl _⟩
  | GAME_OVER => exact ⟨le_refl _, le_refl _⟩

/-- Witness for C8_score_distance_monotone on a PLAYING tick that
resolves both a crash and an orb pickup. -/
theorem C8_score_distance_monotone_witness :
    0 ≤ (1:ℚ)/10 ∧
    (crashOrbState.score ≤
       (gameTick GameState.PLAYING crashOrbState ⟨0, 0⟩ (1/10) 800 600 env0).1.score ∧
     crashOrbState.distance ≤
       (gameTick GameState.PLAYING crashOrbState ⟨0, 0⟩ (1/10) 800 600 env0).1.distance) :=
  ⟨by norm_num,
   C8_score_distance_monotone GameState.PLAYING crashOrbState ⟨0, 0⟩ (1/10) 800 600 env0
     (by norm_num)⟩

/-- Claim C9, amended: outside PLAYING a frame performs only the render
pass — the whole simulation state, including the particle list, is left
untouched and no event is emitted; particle aging runs only while
PLAYING (the counterexample shows an expired-aging particle surviving a
MENU frame unchanged). -/
theorem C9_render_only_outside_playing (phase : GameState) (s : SimState)
    (c : ControlState) (dt w h : ℚ) (env : Env) (hp : phase ≠ GameState.PLAYING) :
    gameTick phase s c dt w h env = (s, []) := by
  simp only [gameTick, if_neg hp]

/-- Witness for C9_render_only_outside_playing at the MENU phase. -/
theorem C9_render_only_outside_playing_witness :
    GameState.MENU ≠ GameState.PLAYING ∧
    gameTick GameState.MENU menuState ⟨0, 0⟩ (1/10) 800 600 env0 = (menuState, []) :=
  ⟨by decide,
   C9_render_only_outside_playing GameState.MENU menuState ⟨0, 0⟩ (1/10) 800 600 env0
     (by decide)⟩

/-- Claim C10 (confirmed): an orb resolved while already boosting is
deactivated, raises the boost charge by 25 clamped to 100, adds exactly
500 to the score, leaves isBoosting true, and emits only the collect
sound — no boost-activation transition or sound occurs. -/
theorem C10_orb_during_boost_extends (st : LoopSt) (e : Entity) (ex px h : ℚ)
    (draws : Nat → Nat → ℚ × ℚ × ℚ) (hb : st.isBoosting = true)
    (ht : e.type = EntityType.orb) :
    (resolveCollision st e ex px h draws).1 = { e with active := false } ∧
    (resolveCollision st e ex px h draws).2.boost = min 100 (st.boost + 25) ∧
    (resolveCollision st e ex px h draws).2.score = st.score + 500 ∧
    (resolveCollision st e ex px h draws).2.isBoosting = true ∧
    (resolveCollision st e ex px h draws).2.events =
      st.events ++ [GEvent.sound SoundKind.collect] := by
  simp [resolveCollision, if_pos ht, hb]

/-- Witness for C10_orb_during_boost_extends: an orb resolved while
boosting with charge 60. -/
theorem C10_orb_during_boost_extends_witness :
    (loopStBoosting.isBoosting = true ∧ orbHit.type = EntityType.orb) ∧
    ((resolveCollision loopStBoosting orbHit 400 400 600 (fun _ _ => (0, 0, 0))).1 =
       { orbHit with active := false } ∧
     (resolveCollision loopStBoosting orbHit 400 400 600 (fun _ _ => (0, 0, 0))).2.boost =
       min 100 (loopStBoosting.boost + 25) ∧
     (resolveCollision loopStBoosting orbHit 400 400 600 (fun _ _ => (0, 0, 0))).2.score =
       loopStBoosting.score + 500 ∧
     (resolveCollision loopStBoosting orbHit 400 400 600 (fun _ _ => (0, 0, 0))).2.isBoosting =
       true ∧
     (resolveCollision loopStBoosting orbHit 400 400 600 (fun _ _ => (0, 0, 0))).2.events =
       loopStBoosting.events ++ [GEvent.sound SoundKind.collect]) :=
  ⟨⟨rfl, rfl⟩,
   C10_orb_during_boost_extends loopStBoosting orbHit 400 400 600 (fun _ _ => (0, 0, 0))
     rfl rfl⟩
